import Mathlib

/-!
Shallow embedding of the wh_pinger heartbeat-monitoring backend.

The embedding covers the components the verified claims are about:

* the two HeartbeatEngine variants present in the source (one routes the
  outcome event on HTTP status, the other on the hasResponse flag), named
  EngineA (src/unnamed/part_004) and EngineB (src/unnamed/part_005);
* FlatlineDetector (src/unnamed/part_004): per-service failure counting,
  flatline detection, recovery, pulse-change events;
* StateManager (src/unnamed/part_003): sustained-warning hysteresis;
* EventBus (src/server/core/EventBus.js): the subscribe-once mechanism;
* the three probe strategies (src/server/strategies/): the shape of the
  ProbeResult each returns;
* AlertManager (src/server/services/AlertManager.js): degradation/recovery
  alerts on pulse_changed events.

The per-service state maps of the JS classes are modelled by a single
state record: all claims are about the evolution of one service's state.
JS fields that may be undefined are modelled with Option; JS truthiness of
an optional boolean field is made explicit by the function truthy.
-/

/-- Pulse status values used by the monitoring core (the client-only label
degraded also appears in the part_005 evaluator). -/
inductive Status
  | healthy
  | warning
  | degraded
  | critical
  | flatline
deriving DecidableEq, Repr

/-- Flatline severity scale, computed by FlatlineDetector.calculateSeverity. -/
inductive Severity
  | warning
  | critical
  | catastrophic
deriving DecidableEq, Repr

/-- Result returned by a strategy's execute: success flag, HTTP status
(0 when no response), and the hasResponse field. hasResponse = none models
a JS object in which the field is absent (undefined). -/
structure ProbeResult where
  success : Bool
  status : Nat
  hasResponse : Option Bool
deriving DecidableEq, Repr

/-- JS truthiness of the optional hasResponse field: an absent (undefined)
field and false are both falsy. -/
def truthy (o : Option Bool) : Bool := o.getD false

/-- Pulse value produced by evaluatePulse: a status with the measured
latency attached. -/
structure Pulse where
  status : Status
  responseTime : Nat
deriving DecidableEq, Repr

/-- Which heartbeat event sendHeartbeat emits for a strategy result. -/
inductive Routed
  | received
  | failed
deriving DecidableEq, Repr

namespace EngineA

/-- evaluatePulse of the HeartbeatEngine variant in src/unnamed/part_004
(lines 278-308): critical on any failure, otherwise classified by the
healthy.max / warning.max latency thresholds. -/
def evaluatePulse (healthyMax warningMax : Nat) (responseTime : Nat)
    (response : ProbeResult) : Pulse :=
  if !response.success then ⟨.critical, responseTime⟩
  else if responseTime ≤ healthyMax then ⟨.healthy, responseTime⟩
  else if responseTime ≤ warningMax then ⟨.warning, responseTime⟩
  else ⟨.critical, responseTime⟩

/-- Outcome-event routing of sendHeartbeat in src/unnamed/part_004
(lines 237-250): heartbeat_received only for success with HTTP 200; both
other branches (response with non-200 status, no response) emit
heartbeat_failed. -/
def routeHeartbeat (response : ProbeResult) : Routed :=
  if response.success && response.status == 200 then .received
  else if truthy response.hasResponse then .failed
  else .failed

end EngineA

namespace EngineB

/-- evaluatePulse of the HeartbeatEngine variant in src/unnamed/part_005
(lines 95-139): flatline for a failure without a response, critical for an
HTTP-error failure, and healthy/warning/degraded/critical by latency for a
success. -/
def evaluatePulse (healthyMax warningMax degradedMax : Nat)
    (responseTime : Nat) (response : ProbeResult) : Pulse :=
  if !response.success then
    if !truthy response.hasResponse then ⟨.flatline, responseTime⟩
    else ⟨.critical, responseTime⟩
  else if responseTime ≤ healthyMax then ⟨.healthy, responseTime⟩
  else if responseTime ≤ warningMax then ⟨.warning, responseTime⟩
  else if responseTime ≤ degradedMax then ⟨.degraded, responseTime⟩
  else ⟨.critical, responseTime⟩

/-- Outcome-event routing of sendHeartbeat in src/unnamed/part_005
(lines 54-67): heartbeat_received on success, and also on a non-success
result that carries a truthy hasResponse; heartbeat_failed only when no
response was received. -/
def routeHeartbeat (response : ProbeResult) : Routed :=
  if response.success then .received
  else if truthy response.hasResponse then .received
  else .failed

end EngineB

/-- Events published on the bus by FlatlineDetector / StateManager, with
the payload fields the claims inspect. The downtime of a recovery is an
Option Int: none models the NaN a JS date subtraction would produce if
flatlineStartTime were null. -/
inductive EmittedEvent
  | pulseChanged (oldStatus newStatus : Status)
  | flatlineDetected (consecutiveFailures : Nat) (severity : Severity)
  | serviceRecovered (downtime : Option Int) (failureCount : Nat)
deriving DecidableEq, Repr

/-- Sublist of flatline_detected events. -/
def flatlineEvents (evs : List EmittedEvent) : List EmittedEvent :=
  evs.filter fun e =>
    match e with
    | .flatlineDetected _ _ => true
    | _ => false

/-- Sublist of pulse_changed events. -/
def pulseChangedEvents (evs : List EmittedEvent) : List EmittedEvent :=
  evs.filter fun e =>
    match e with
    | .pulseChanged _ _ => true
    | _ => false

/-- Sublist of service_recovered events. -/
def recoveredEvents (evs : List EmittedEvent) : List EmittedEvent :=
  evs.filter fun e =>
    match e with
    | .serviceRecovered _ _ => true
    | _ => false

namespace FlatlineDetector

/-- Per-service state of FlatlineDetector (src/unnamed/part_004,
getServiceState lines 114-130). -/
structure State where
  consecutiveFailures : Nat
  lastSuccess : Option Int
  lastFailure : Option Int
  lastCheck : Option Int
  lastPulseStatus : Option Status
  lastHttpStatus : Option Nat
  isFlatlined : Bool
  flatlineStartTime : Option Int
  successCount : Nat
  failureCount : Nat
deriving DecidableEq, Repr

/-- Initial per-service state created lazily on first observed event. -/
def State.initial : State :=
  { consecutiveFailures := 0
    lastSuccess := none
    lastFailure := none
    lastCheck := none
    lastPulseStatus := none
    lastHttpStatus := none
    isFlatlined := false
    flatlineStartTime := none
    successCount := 0
    failureCount := 0 }

/-- calculateSeverity (src/unnamed/part_004 lines 148-152). -/
def calculateSeverity (failures : Nat) : Severity :=
  if failures ≥ 10 then .catastrophic
  else if failures ≥ 5 then .critical
  else .warning

/-- handleFailure (src/unnamed/part_004 lines 20-63). Processes one
heartbeat_failed event: increments consecutiveFailures, raises the
flatline flag once the per-service threshold is reached (emitting
flatline_detected exactly when the flag flips), then emits pulse_changed
to flatline when the previous status was a different known status. -/
def handleFailure (flatlineThreshold : Nat) (timestamp : Int)
    (httpStatus : Option Nat) (s : State) : State × List EmittedEvent :=
  let s1 := { s with
    consecutiveFailures := s.consecutiveFailures + 1
    lastFailure := some timestamp
    lastCheck := some timestamp
    lastHttpStatus := httpStatus }
  let step :=
    if s1.consecutiveFailures ≥ flatlineThreshold then
      if s1.isFlatlined = false then
        ({ s1 with isFlatlined := true, flatlineStartTime := some timestamp },
         [EmittedEvent.flatlineDetected s1.consecutiveFailures
           (calculateSeverity s1.consecutiveFailures)])
      else (s1, [])
    else (s1, [])
  let s2 := step.1
  let pulseEvs :=
    match s2.lastPulseStatus with
    | some p => if p ≠ Status.flatline then [EmittedEvent.pulseChanged p .flatline] else []
    | none => []
  ({ s2 with lastPulseStatus := some .flatline, failureCount := s2.failureCount + 1 },
   step.2 ++ pulseEvs)

/-- handleSuccess (src/unnamed/part_004 lines 69-107). Processes one
heartbeat_received event: emits service_recovered when the service was
flatlined, resets the failure counter and flatline flag, and emits
pulse_changed when the previous status differs from the new pulse status. -/
def handleSuccess (timestamp : Int) (pulseStatus : Status)
    (httpStatus : Option Nat) (s : State) : State × List EmittedEvent :=
  let previousStatus := s.lastPulseStatus
  let recoveryEvs :=
    if s.isFlatlined then
      [EmittedEvent.serviceRecovered (s.flatlineStartTime.map (fun t0 => timestamp - t0))
        s.consecutiveFailures]
    else []
  let s1 := { s with
    consecutiveFailures := 0
    lastSuccess := some timestamp
    lastCheck := some timestamp
    isFlatlined := false
    flatlineStartTime := none
    successCount := s.successCount + 1
    lastHttpStatus := httpStatus }
  let pulseEvs :=
    match previousStatus with
    | some p => if p ≠ pulseStatus then [EmittedEvent.pulseChanged p pulseStatus] else []
    | none => []
  ({ s1 with lastPulseStatus := some pulseStatus }, recoveryEvs ++ pulseEvs)

end FlatlineDetector

/-- Fold of n consecutive heartbeat_failed events through
FlatlineDetector.handleFailure, concatenating all emitted events. -/
def runFailures (n : Nat) (flatlineThreshold : Nat) (timestamp : Int)
    (httpStatus : Option Nat) (s : FlatlineDetector.State) :
    FlatlineDetector.State × List EmittedEvent :=
  match n with
  | 0 => (s, [])
  | n + 1 =>
      let step := FlatlineDetector.handleFailure flatlineThreshold timestamp httpStatus s
      let rest := runFailures n flatlineThreshold timestamp httpStatus step.1
      (rest.1, step.2 ++ rest.2)

namespace StateManager

/-- One entry of the bounded responseHistory ring (the fields the
sustained-status logic reads). -/
structure HistEntry where
  status : Status
  isFailure : Bool
deriving DecidableEq, Repr

/-- Per-service state of StateManager (src/unnamed/part_003,
getServiceState lines 588-602). -/
structure State where
  consecutiveFailures : Nat
  lastSuccess : Option Int
  lastFailure : Option Int
  lastCheck : Option Int
  currentStatus : Status
  responseHistory : List HistEntry
  successCount : Nat
  failureCount : Nat
deriving DecidableEq, Repr

/-- Initial per-service state: currentStatus starts healthy. -/
def State.initial : State :=
  { consecutiveFailures := 0
    lastSuccess := none
    lastFailure := none
    lastCheck := none
    currentStatus := .healthy
    responseHistory := []
    successCount := 0
    failureCount := 0 }

/-- addToHistory (src/unnamed/part_003 lines 531-539): push the entry and
shift the oldest out when capacity sustainedCount is exceeded. -/
def addToHistory (sustainedCount : Nat) (s : State) (entry : HistEntry) : State :=
  let h := s.responseHistory ++ [entry]
  { s with responseHistory := if h.length > sustainedCount then h.tail else h }

/-- Last n entries of the history, as JS slice(-n). -/
def lastN (n : Nat) (l : List HistEntry) : List HistEntry :=
  l.drop (l.length - n)

/-- evaluateSustainedStatus (src/unnamed/part_003 lines 547-581): critical
and healthy pulses pass through immediately; a warning pulse yields warning
only when the last sustainedCount history entries are all non-failure
warning entries, and healthy otherwise. -/
def evaluateSustainedStatus (sustainedCount : Nat) (s : State)
    (currentPulseStatus : Status) : Status :=
  match currentPulseStatus with
  | .critical => .critical
  | .healthy => .healthy
  | .warning =>
      if s.responseHistory.length ≥ sustainedCount then
        if (lastN sustainedCount s.responseHistory).all
            (fun r => !r.isFailure && r.status == Status.warning) then
          .warning
        else .healthy
      else .healthy
  | _ => .healthy

/-- handleSuccess (src/unnamed/part_003 lines 492-524): reset the failure
counter, append to history, evaluate the sustained status and emit
pulse_changed when it differs from the previous status. -/
def handleSuccess (sustainedCount : Nat) (timestamp : Int)
    (pulseStatus : Status) (s : State) : State × List EmittedEvent :=
  let previousStatus := s.currentStatus
  let s1 := { s with
    consecutiveFailures := 0
    lastSuccess := some timestamp
    lastCheck := some timestamp
    successCount := s.successCount + 1 }
  let s2 := addToHistory sustainedCount s1 { status := pulseStatus, isFailure := false }
  let newStatus := evaluateSustainedStatus sustainedCount s2 pulseStatus
  let s3 := { s2 with currentStatus := newStatus }
  (s3,
   if previousStatus ≠ newStatus then [EmittedEvent.pulseChanged previousStatus newStatus]
   else [])

/-- handleFailure (src/unnamed/part_003 lines 450-486): count the failure,
append a critical failure entry, and go critical (emitting pulse_changed)
once consecutiveFailures reaches the tier's critical threshold. -/
def handleFailure (criticalThreshold sustainedCount : Nat) (timestamp : Int)
    (s : State) : State × List EmittedEvent :=
  let previousStatus := s.currentStatus
  let s1 := { s with
    consecutiveFailures := s.consecutiveFailures + 1
    lastFailure := some timestamp
    lastCheck := some timestamp
    failureCount := s.failureCount + 1 }
  let s2 := addToHistory sustainedCount s1 { status := .critical, isFailure := true }
  if s2.consecutiveFailures ≥ criticalThreshold then
    ({ s2 with currentStatus := .critical },
     if previousStatus ≠ Status.critical then
       [EmittedEvent.pulseChanged previousStatus .critical]
     else [])
  else (s2, [])

end StateManager

/-- Fold of a list of successful pulses through StateManager.handleSuccess,
returning the currentStatus after each step and all emitted events. -/
def smTrace (sustainedCount : Nat) (pulses : List Status)
    (s : StateManager.State) : List Status × List EmittedEvent :=
  match pulses with
  | [] => ([], [])
  | p :: rest =>
      let step := StateManager.handleSuccess sustainedCount 0 p s
      let tail := smTrace sustainedCount rest step.1
      (step.1.currentStatus :: tail.1, step.2 ++ tail.2)

namespace EventBus

/-- A registered listener of one event. The id models the JS function
reference used by off for removal; isOnce marks the wrapper installed by
once; throws says whether the wrapped callback raises when invoked. -/
structure BusListener where
  id : Nat
  isOnce : Bool
  throws : Bool
deriving DecidableEq, Repr

/-- Listener list of one event plus a count of callback invocations. -/
structure Bus where
  listeners : List BusListener
  invocations : Nat
deriving DecidableEq, Repr

/-- Bus with no listeners. -/
def Bus.empty : Bus := { listeners := [], invocations := 0 }

/-- Subscribe (EventBus.js lines 17-22, the on method): append the listener. -/
def onEvent (id : Nat) (throws : Bool) (bus : Bus) : Bus :=
  { bus with listeners := bus.listeners ++ [{ id := id, isOnce := false, throws := throws }] }

/-- once (EventBus.js lines 42-48): append a wrapper that invokes the
callback and then unsubscribes itself; the unsubscribe is skipped when the
callback throws, because the off call comes after the callback in the
wrapper body. -/
def once (id : Nat) (throws : Bool) (bus : Bus) : Bus :=
  { bus with listeners := bus.listeners ++ [{ id := id, isOnce := true, throws := throws }] }

/-- off (EventBus.js lines 29-35): remove the listener with this reference. -/
def off (id : Nat) (ls : List BusListener) : List BusListener :=
  ls.filter fun l => l.id ≠ id

/-- One emit pass (EventBus.js lines 55-78): iterate over the snapshot of
the listener list; each callback invocation is counted; an exception from
a callback is caught and dispatch continues; a once wrapper whose callback
returned normally removes itself from the current list. -/
def dispatch : List BusListener → List BusListener → Nat → List BusListener × Nat
  | [], current, inv => (current, inv)
  | l :: rest, current, inv =>
      if l.isOnce && !l.throws then dispatch rest (off l.id current) (inv + 1)
      else dispatch rest current (inv + 1)

/-- emit: run dispatch over the current listeners. -/
def emit (bus : Bus) : Bus :=
  let out := dispatch bus.listeners bus.listeners bus.invocations
  { listeners := out.1, invocations := out.2 }

/-- listenerCount (EventBus.js lines 116-118). -/
def listenerCount (bus : Bus) : Nat := bus.listeners.length

end EventBus

/-- Abstract outcome of the fetch a strategy performs: either a transport
response (with HTTP status, ok flag, whether the body parses as JSON,
whether a GraphQL auth error is present, whether any GraphQL errors are
present) or a transport failure (timeout or network error). -/
inductive TransportOutcome
  | response (status : Nat) (ok : Bool) (bodyParses : Bool) (authError : Bool) (gqlErrors : Bool)
  | netFailure (timeout : Bool)
deriving DecidableEq, Repr

namespace BasicGraphQLStrategy

/-- execute (src/server/strategies/BasicGraphQLStrategy.js): parse errors
are tolerated (they only clear success); every transport response yields
hasResponse = true and every transport failure hasResponse = false. -/
def execute : TransportOutcome → ProbeResult
  | .response status ok bodyParses _ _ =>
      { success := ok && status == 200 && bodyParses
        status := status
        hasResponse := some true }
  | .netFailure _ =>
      { success := false, status := 0, hasResponse := some false }

end BasicGraphQLStrategy

namespace AuthenticatedGraphQLStrategy

/-- execute (src/server/strategies/AuthenticatedGraphQLStrategy.js): the
body is parsed without a guard, so a parse failure lands in the catch
branch; no branch sets a hasResponse field. -/
def execute : TransportOutcome → ProbeResult
  | .response status ok bodyParses authError _ =>
      if bodyParses then
        { success := ok && status == 200 && !authError
          status := status
          hasResponse := none }
      else
        { success := false, status := 0, hasResponse := none }
  | .netFailure _ =>
      { success := false, status := 0, hasResponse := none }

end AuthenticatedGraphQLStrategy

namespace QueryGraphQLStrategy

/-- execute (src/server/strategies/QueryGraphQLStrategy.js): like the
authenticated strategy but failing on any non-empty GraphQL errors array;
no branch sets a hasResponse field. -/
def execute : TransportOutcome → ProbeResult
  | .response status ok bodyParses _ gqlErrors =>
      if bodyParses then
        { success := ok && status == 200 && !gqlErrors
          status := status
          hasResponse := none }
      else
        { success := false, status := 0, hasResponse := none }
  | .netFailure _ =>
      { success := false, status := 0, hasResponse := none }

end QueryGraphQLStrategy

namespace AlertManager

/-- Kinds of alert records AlertManager.handlePulseChange can produce. -/
inductive AlertKind
  | degradedAlert
  | recoveryAlert
deriving DecidableEq, Repr

/-- Status hierarchy of isStatusDegraded
(src/server/services/AlertManager.js lines 112-120); statuses outside the
table look up to undefined, modelled as none. -/
def statusHierarchy : Status → Option Nat
  | .healthy => some 0
  | .warning => some 1
  | .critical => some 2
  | _ => none

/-- JS greater-than on possibly-undefined numbers: any comparison with
undefined is false. -/
def jsGt : Option Nat → Option Nat → Bool
  | some a, some b => a > b
  | _, _ => false

/-- isStatusDegraded (AlertManager.js lines 112-120). -/
def isStatusDegraded (oldStatus newStatus : Status) : Bool :=
  jsGt (statusHierarchy newStatus) (statusHierarchy oldStatus)

/-- handlePulseChange (AlertManager.js lines 22-62), reduced to the alert
records it logs and emits: nothing when the service is muted, a degraded
alert on a strict hierarchy increase, and a recovery alert when the new
status is healthy and the old one is not. -/
def handlePulseChange (muted : Bool) (oldStatus newStatus : Status) : List AlertKind :=
  if muted then []
  else
    (if isStatusDegraded oldStatus newStatus then [AlertKind.degradedAlert] else []) ++
    (if newStatus = Status.healthy ∧ oldStatus ≠ Status.healthy then [AlertKind.recoveryAlert]
     else [])

end AlertManager

/-- Pulse statuses of the S1 scenario: the five successful probe latencies
classified by the part_004 evaluator with healthy.max = 200 and
warning.max = 500. -/
def s1Pulses : List Status :=
  [150, 300, 350, 380, 120].map fun l =>
    (EngineA.evaluatePulse 200 500 l
      { success := true, status := 200, hasResponse := some true }).status

@[simp] theorem flatlineEvents_append (a b : List EmittedEvent) :
    flatlineEvents (a ++ b) = flatlineEvents a ++ flatlineEvents b := by
  simp [flatlineEvents]

@[simp] theorem pulseChangedEvents_append (a b : List EmittedEvent) :
    pulseChangedEvents (a ++ b) = pulseChangedEvents a ++ pulseChangedEvents b := by
  simp [pulseChangedEvents]

@[simp] theorem recoveredEvents_append (a b : List EmittedEvent) :
    recoveredEvents (a ++ b) = recoveredEvents a ++ recoveredEvents b := by
  simp [recoveredEvents]

theorem handleFailure_spec (T : Nat) (ts : Int) (hs : Option Nat)
    (s : FlatlineDetector.State) :
    (FlatlineDetector.handleFailure T ts hs s).1.consecutiveFailures
        = s.consecutiveFailures + 1 ∧
    (FlatlineDetector.handleFailure T ts hs s).1.isFlatlined
        = (s.isFlatlined || decide (T ≤ s.consecutiveFailures + 1)) ∧
    flatlineEvents (FlatlineDetector.handleFailure T ts hs s).2
        = (if s.isFlatlined = false ∧ T ≤ s.consecutiveFailures + 1 then
            [EmittedEvent.flatlineDetected (s.consecutiveFailures + 1)
              (FlatlineDetector.calculateSeverity (s.consecutiveFailures + 1))]
          else []) := by
  unfold FlatlineDetector.handleFailure
  by_cases hT : T ≤ s.consecutiveFailures + 1
  · cases hF : s.isFlatlined
    · rcases hl : s.lastPulseStatus with _ | p
      · simp [hT, hF, hl, flatlineEvents]
      · by_cases hp : p = Status.flatline <;>
          simp [hT, hF, hl, hp, flatlineEvents]
    · rcases hl : s.lastPulseStatus with _ | p
      · simp [hT, hF, hl, flatlineEvents]
      · by_cases hp : p = Status.flatline <;>
          simp [hT, hF, hl, hp, flatlineEvents]
  · rcases hl : s.lastPulseStatus with _ | p
    · simp [hT, hl, flatlineEvents]
    · by_cases hp : p = Status.flatline <;>
        simp [hT, hl, hp, flatlineEvents]

theorem runFailures_spec (n : Nat) (T : Nat) (ts : Int) (hs : Option Nat) :
    ∀ s : FlatlineDetector.State,
    (runFailures n T ts hs s).1.consecutiveFailures = s.consecutiveFailures + n ∧
    (runFailures n T ts hs s).1.isFlatlined
      = (s.isFlatlined || decide (1 ≤ n ∧ T ≤ s.consecutiveFailures + n)) ∧
    (flatlineEvents (runFailures n T ts hs s).2).length
      = (if s.isFlatlined = false ∧ 1 ≤ n ∧ T ≤ s.consecutiveFailures + n then 1 else 0) := by
  induction n with
  | zero =>
      intro s
      simp [runFailures, flatlineEvents]
  | succ n ih =>
      intro s
      obtain ⟨hc, hf, he⟩ := handleFailure_spec T ts hs s
      obtain ⟨ihc, ihf, ihe⟩ := ih (FlatlineDetector.handleFailure T ts hs s).1
      refine ⟨?_, ?_, ?_⟩
      · show (runFailures n T ts hs (FlatlineDetector.handleFailure T ts hs s).1).1.consecutiveFailures = _
        rw [ihc, hc]
        omega
      · show (runFailures n T ts hs (FlatlineDetector.handleFailure T ts hs s).1).1.isFlatlined = _
        rw [ihf, hf, hc]
        cases hb : s.isFlatlined
        · rw [Bool.eq_iff_iff]
          simp only [Bool.false_or, Bool.or_eq_true, decide_eq_true_eq]
          omega
        · simp
      · show (flatlineEvents ((FlatlineDetector.handleFailure T ts hs s).2
            ++ (runFailures n T ts hs (FlatlineDetector.handleFailure T ts hs s).1).2)).length = _
        rw [flatlineEvents_append, List.length_append, he, ihe, hf, hc]
        cases hb : s.isFlatlined
        · simp only [Bool.false_or, true_and, decide_eq_false_iff_not]
          split_ifs <;> simp_all <;> omega
        · simp

/-- C1 counterexample: with flatline threshold 3, three consecutive probe
failures that carried a transport-level response (HTTP 503, hasResponse
true) are each routed to heartbeat_failed by the part_004 engine, yet
after the third one the FlatlineDetector has isFlatlined = true — the
claim said isFlatlined remains false throughout. -/
theorem c1_counterexample :
    EngineA.routeHeartbeat { success := false, status := 503, hasResponse := some true }
      = Routed.failed ∧
    (runFailures 3 3 0 (some 503) FlatlineDetector.State.initial).1.isFlatlined = true := by
  decide

/-- C1 (amended): every failure result is routed to heartbeat_failed by
the part_004 engine; n such failures from the initial state leave
consecutiveFailures = n, and isFlatlined holds exactly when at least one
failure occurred and n reached the flatline threshold — hasResponse does
not prevent flatline. Under the part_005 engine a failure with a truthy
hasResponse is instead routed to heartbeat_received. -/
theorem c1_theorem (n flatlineThreshold : Nat) (ts : Int) (hs : Option Nat)
    (r : ProbeResult) :
    (r.success = false → EngineA.routeHeartbeat r = Routed.failed) ∧
    (runFailures n flatlineThreshold ts hs FlatlineDetector.State.initial).1.consecutiveFailures
      = n ∧
    (runFailures n flatlineThreshold ts hs FlatlineDetector.State.initial).1.isFlatlined
      = decide (1 ≤ n ∧ flatlineThreshold ≤ n) ∧
    (r.success = false → truthy r.hasResponse = true →
      EngineB.routeHeartbeat r = Routed.received) := by
  obtain ⟨hc, hf, -⟩ :=
    runFailures_spec n flatlineThreshold ts hs FlatlineDetector.State.initial
  refine ⟨?_, ?_, ?_, ?_⟩
  · intro hsuc
    simp [EngineA.routeHeartbeat, hsuc]
  · simpa [FlatlineDetector.State.initial] using hc
  · simpa [FlatlineDetector.State.initial] using hf
  · intro hsuc htr
    simp [EngineB.routeHeartbeat, hsuc, htr]

/-- C1 witness: the amended theorem applied at three HTTP-503 failures
against threshold 3. -/
theorem c1_witness :
    EngineA.routeHeartbeat { success := false, status := 503, hasResponse := some true }
      = Routed.failed ∧
    (runFailures 3 3 0 (some 503) FlatlineDetector.State.initial).1.consecutiveFailures
      = 3 ∧
    EngineB.routeHeartbeat { success := false, status := 503, hasResponse := some true }
      = Routed.received := by
  have h := c1_theorem 3 3 0 (some 503)
    { success := false, status := 503, hasResponse := some true }
  exact ⟨h.1 rfl, h.2.1, h.2.2.2 rfl rfl⟩

/-- C2 counterexample: the part_005 sendHeartbeat emits heartbeat_received
for a result with success = false and a truthy hasResponse (an HTTP 503
with body), although the claim requires heartbeat_failed whenever
success ∧ httpStatus = 200 does not hold. -/
theorem c2_counterexample :
    EngineB.routeHeartbeat { success := false, status := 503, hasResponse := some true }
      = Routed.received ∧
    ({ success := false, status := 503, hasResponse := some true } : ProbeResult).success
      = false := by
  decide

/-- C2 (amended): the part_004 sendHeartbeat emits heartbeat_received
exactly when the result has success = true and httpStatus = 200, and
heartbeat_failed in every other case; the part_005 variant instead emits
heartbeat_received exactly when success is true or hasResponse is truthy. -/
theorem c2_theorem (r : ProbeResult) :
    (EngineA.routeHeartbeat r = Routed.received ↔ r.success = true ∧ r.status = 200) ∧
    (EngineA.routeHeartbeat r = Routed.failed ↔ ¬(r.success = true ∧ r.status = 200)) ∧
    (EngineB.routeHeartbeat r = Routed.received
      ↔ (r.success = true ∨ truthy r.hasResponse = true)) := by
  unfold EngineA.routeHeartbeat EngineB.routeHeartbeat
  cases hs : r.success <;> cases ht : truthy r.hasResponse <;>
    by_cases h2 : r.status = 200 <;> simp [hs, ht, h2]

/-- C3 counterexample: the part_005 evaluatePulse returns flatline (not
critical) for a failure without a response, and the status degraded
(outside {healthy, warning, critical}) for a successful probe whose
latency lies between warning.max and degraded.max. -/
theorem c3_counterexample :
    (EngineB.evaluatePulse 200 500 1000 100
      { success := false, status := 0, hasResponse := some false }).status
        = Status.flatline ∧
    (EngineB.evaluatePulse 200 500 1000 750
      { success := true, status := 200, hasResponse := some true }).status
        = Status.degraded := by
  decide

/-- C3 (amended): the part_004 evaluatePulse satisfies the claim — healthy
for a success within healthy.max, warning for a success within warning.max,
critical beyond it and for every failure, never flatline or degraded, with
the measured latency attached; the part_005 evaluator does not. -/
theorem c3_theorem (healthyMax warningMax responseTime : Nat) (r : ProbeResult)
    (h : healthyMax ≤ warningMax) :
    (EngineA.evaluatePulse healthyMax warningMax responseTime r).responseTime
      = responseTime ∧
    (r.success = true → responseTime ≤ healthyMax →
      (EngineA.evaluatePulse healthyMax warningMax responseTime r).status = Status.healthy) ∧
    (r.success = true → healthyMax < responseTime → responseTime ≤ warningMax →
      (EngineA.evaluatePulse healthyMax warningMax responseTime r).status = Status.warning) ∧
    (r.success = true → warningMax < responseTime →
      (EngineA.evaluatePulse healthyMax warningMax responseTime r).status = Status.critical) ∧
    (r.success = false →
      (EngineA.evaluatePulse healthyMax warningMax responseTime r).status = Status.critical) ∧
    ((EngineA.evaluatePulse healthyMax warningMax responseTime r).status = Status.healthy ∨
     (EngineA.evaluatePulse healthyMax warningMax responseTime r).status = Status.warning ∨
     (EngineA.evaluatePulse healthyMax warningMax responseTime r).status = Status.critical) := by
  unfold EngineA.evaluatePulse
  cases hs : r.success <;>
    by_cases h1 : responseTime ≤ healthyMax <;>
    by_cases h2 : responseTime ≤ warningMax <;>
    simp [hs, h1, h2] <;>
    omega

/-- C3 witness: the amended theorem at thresholds 200/500, instantiated at
a 150 ms success, a 300 ms success, a 750 ms success and a failure. -/
theorem c3_witness :
    (EngineA.evaluatePulse 200 500 150
      { success := true, status := 200, hasResponse := some true }).status = Status.healthy ∧
    (EngineA.evaluatePulse 200 500 300
      { success := true, status := 200, hasResponse := some true }).status = Status.warning ∧
    (EngineA.evaluatePulse 200 500 750
      { success := true, status := 200, hasResponse := some true }).status = Status.critical ∧
    (EngineA.evaluatePulse 200 500 100
      { success := false, status := 503, hasResponse := some true }).status = Status.critical := by
  refine ⟨?_, ?_, ?_, ?_⟩
  · exact (c3_theorem 200 500 150 _ (by omega)).2.1 rfl (by omega)
  · exact (c3_theorem 200 500 300 _ (by omega)).2.2.1 rfl (by omega) (by omega)
  · exact (c3_theorem 200 500 750 _ (by omega)).2.2.2.1 rfl (by omega)
  · exact (c3_theorem 200 500 100 _ (by omega)).2.2.2.2.1 rfl

/-- C4: with healthy.max = 200, warning.max = 500 and sustainedCount = 3,
the five successful probes with latencies 150, 300, 350, 380, 120 evaluate
to pulses healthy, warning, warning, warning, healthy, and the
StateManager starting from the initial state reports currentStatus
healthy, healthy, healthy, warning, healthy after each probe, emitting
exactly the two pulse_changed events healthy→warning and warning→healthy. -/
theorem c4_theorem :
    s1Pulses = [Status.healthy, Status.warning, Status.warning, Status.warning,
      Status.healthy] ∧
    smTrace 3 s1Pulses StateManager.State.initial =
      ([Status.healthy, Status.healthy, Status.healthy, Status.warning, Status.healthy],
       [EmittedEvent.pulseChanged Status.healthy Status.warning,
        EmittedEvent.pulseChanged Status.warning Status.healthy]) := by
  decide

/-- C5: a heartbeat failure emits flatline_detected exactly when the
incremented consecutiveFailures reaches the threshold while isFlatlined is
still false; no flatline_detected is emitted while isFlatlined holds; a
run of n failures from a fresh (reset) state emits exactly one
flatline_detected when the threshold is reached and none otherwise; and
the severity at detection is warning below 5 failures, critical from 5,
and catastrophic from 10. -/
theorem c5_theorem (T : Nat) (ts : Int) (hs : Option Nat)
    (s : FlatlineDetector.State) (n : Nat) :
    (flatlineEvents (FlatlineDetector.handleFailure T ts hs s).2
      = (if s.isFlatlined = false ∧ T ≤ s.consecutiveFailures + 1 then
          [EmittedEvent.flatlineDetected (s.consecutiveFailures + 1)
            (FlatlineDetector.calculateSeverity (s.consecutiveFailures + 1))]
        else [])) ∧
    (s.isFlatlined = true →
      flatlineEvents (FlatlineDetector.handleFailure T ts hs s).2 = []) ∧
    ((FlatlineDetector.handleFailure T ts hs s).1.isFlatlined
      = (s.isFlatlined || decide (T ≤ s.consecutiveFailures + 1))) ∧
    ((flatlineEvents (runFailures n T ts hs FlatlineDetector.State.initial).2).length
      = (if 1 ≤ n ∧ T ≤ n then 1 else 0)) ∧
    (∀ k, k < 5 → FlatlineDetector.calculateSeverity k = Severity.warning) ∧
    (∀ k, 5 ≤ k → k < 10 → FlatlineDetector.calculateSeverity k = Severity.critical) ∧
    (∀ k, 10 ≤ k → FlatlineDetector.calculateSeverity k = Severity.catastrophic) := by
  obtain ⟨hc, hf, he⟩ := handleFailure_spec T ts hs s
  obtain ⟨-, -, hrun⟩ := runFailures_spec n T ts hs FlatlineDetector.State.initial
  refine ⟨he, ?_, hf, ?_, ?_, ?_, ?_⟩
  · intro hb
    rw [he]
    simp [hb]
  · simpa [FlatlineDetector.State.initial] using hrun
  · intro k hk
    unfold FlatlineDetector.calculateSeverity
    split_ifs <;> first | rfl | omega
  · intro k hk1 hk2
    unfold FlatlineDetector.calculateSeverity
    split_ifs <;> first | rfl | omega
  · intro k hk
    unfold FlatlineDetector.calculateSeverity
    split_ifs <;> first | rfl | omega

/-- C5 witness: with threshold 2, the second failure from a fresh state
flips isFlatlined and is reported with severity warning (2 < 5 failures);
a third failure while flatlined emits no flatline_detected. -/
theorem c5_witness :
    flatlineEvents (FlatlineDetector.handleFailure 2 0 (some 503)
        (runFailures 3 2 0 (some 503) FlatlineDetector.State.initial).1).2 = [] ∧
    (flatlineEvents (runFailures 3 2 0 (some 503) FlatlineDetector.State.initial).2).length
      = 1 ∧
    FlatlineDetector.calculateSeverity 2 = Severity.warning ∧
    FlatlineDetector.calculateSeverity 7 = Severity.critical ∧
    FlatlineDetector.calculateSeverity 12 = Severity.catastrophic := by
  have h := c5_theorem 2 0 (some 503)
    (runFailures 3 2 0 (some 503) FlatlineDetector.State.initial).1 3
  refine ⟨h.2.1 (by decide), ?_, h.2.2.2.2.1 2 (by omega),
    h.2.2.2.2.2.1 7 (by omega) (by omega), h.2.2.2.2.2.2 12 (by omega)⟩
  rw [h.2.2.2.1]
  decide

/-- C6: a success event arriving while isFlatlined is true emits exactly
one service_recovered event, whose downtime is the success timestamp minus
flatlineStartTime and whose failureCount is the consecutiveFailures
accumulated during the outage; afterwards isFlatlined is false,
flatlineStartTime is cleared and consecutiveFailures is 0. -/
theorem c6_theorem (ts : Int) (pulse : Status) (hs : Option Nat)
    (s : FlatlineDetector.State) (h : s.isFlatlined = true) :
    recoveredEvents (FlatlineDetector.handleSuccess ts pulse hs s).2
      = [EmittedEvent.serviceRecovered (s.flatlineStartTime.map (fun t0 => ts - t0))
          s.consecutiveFailures] ∧
    (FlatlineDetector.handleSuccess ts pulse hs s).1.isFlatlined = false ∧
    (FlatlineDetector.handleSuccess ts pulse hs s).1.flatlineStartTime = none ∧
    (FlatlineDetector.handleSuccess ts pulse hs s).1.consecutiveFailures = 0 := by
  unfold FlatlineDetector.handleSuccess
  rcases hl : s.lastPulseStatus with _ | p
  · simp [h, hl, recoveredEvents]
  · by_cases hp : p = pulse <;> simp [h, hl, hp, recoveredEvents]

/-- C6 witness: the S3 scenario — three failures against threshold 2
starting at time 1000 put the service in flatline with
flatlineStartTime = 1000 and consecutiveFailures = 3; a success 30 s
later yields service_recovered with downtime 30000 and failureCount 3. -/
theorem c6_witness :
    (runFailures 3 2 1000 (some 503) FlatlineDetector.State.initial).1.isFlatlined
      = true ∧
    recoveredEvents (FlatlineDetector.handleSuccess 31000 Status.healthy (some 200)
        (runFailures 3 2 1000 (some 503) FlatlineDetector.State.initial).1).2
      = [EmittedEvent.serviceRecovered (some 30000) 3] := by
  have hb : (runFailures 3 2 1000 (some 503) FlatlineDetector.State.initial).1.isFlatlined
      = true := by decide
  refine ⟨hb, ?_⟩
  rw [(c6_theorem 31000 Status.healthy (some 200) _ hb).1]
  decide

theorem handleFailure_pulse (T : Nat) (ts : Int) (hs : Option Nat)
    (s : FlatlineDetector.State) :
    pulseChangedEvents (FlatlineDetector.handleFailure T ts hs s).2
      = (match s.lastPulseStatus with
         | some p => if p = Status.flatline then []
             else [EmittedEvent.pulseChanged p Status.flatline]
         | none => []) ∧
    (FlatlineDetector.handleFailure T ts hs s).1.lastPulseStatus
      = some Status.flatline := by
  unfold FlatlineDetector.handleFailure
  by_cases hT : T ≤ s.consecutiveFailures + 1
  · cases hF : s.isFlatlined
    · rcases hl : s.lastPulseStatus with _ | p
      · simp [hT, hF, hl, pulseChangedEvents]
      · by_cases hp : p = Status.flatline <;>
          simp [hT, hF, hl, hp, pulseChangedEvents]
    · rcases hl : s.lastPulseStatus with _ | p
      · simp [hT, hF, hl, pulseChangedEvents]
      · by_cases hp : p = Status.flatline <;>
          simp [hT, hF, hl, hp, pulseChangedEvents]
  · rcases hl : s.lastPulseStatus with _ | p
    · simp [hT, hl, pulseChangedEvents]
    · by_cases hp : p = Status.flatline <;>
        simp [hT, hl, hp, pulseChangedEvents]

theorem handleSuccess_pulse (ts : Int) (pulse : Status) (hs : Option Nat)
    (s : FlatlineDetector.State) :
    pulseChangedEvents (FlatlineDetector.handleSuccess ts pulse hs s).2
      = (match s.lastPulseStatus with
         | some p => if p = pulse then [] else [EmittedEvent.pulseChanged p pulse]
         | none => []) ∧
    (FlatlineDetector.handleSuccess ts pulse hs s).1.lastPulseStatus = some pulse := by
  unfold FlatlineDetector.handleSuccess
  cases hF : s.isFlatlined
  · rcases hl : s.lastPulseStatus with _ | p
    · simp [hF, hl, pulseChangedEvents]
    · by_cases hp : p = pulse <;> simp [hF, hl, hp, pulseChangedEvents]
  · rcases hl : s.lastPulseStatus with _ | p
    · simp [hF, hl, pulseChangedEvents]
    · by_cases hp : p = pulse <;> simp [hF, hl, hp, pulseChangedEvents]

/-- C7 counterexample: the very first event observed for a service changes
its recorded status (from the unset initial status to healthy) but emits
no pulse_changed event, contradicting the claim that every change —
including the one caused by the very first observed event — produces
exactly one pulse_changed. -/
theorem c7_counterexample :
    FlatlineDetector.State.initial.lastPulseStatus = none ∧
    (FlatlineDetector.handleSuccess 0 Status.healthy (some 200)
        FlatlineDetector.State.initial).1.lastPulseStatus = some Status.healthy ∧
    pulseChangedEvents (FlatlineDetector.handleSuccess 0 Status.healthy (some 200)
        FlatlineDetector.State.initial).2 = [] := by
  decide

/-- C7 (amended): once a status has been recorded, a failure event emits
exactly one pulse_changed (to flatline) when the recorded status differs
from flatline and none otherwise, and a success event emits exactly one
pulse_changed when the recorded status differs from the new pulse status
and none otherwise; every emitted pulse_changed has oldStatus ≠ newStatus;
the first observed event records a status without emitting pulse_changed. -/
theorem c7_theorem (T : Nat) (ts : Int) (hs : Option Nat) (pulse : Status)
    (s : FlatlineDetector.State) :
    (pulseChangedEvents (FlatlineDetector.handleFailure T ts hs s).2
      = (match s.lastPulseStatus with
         | some p => if p = Status.flatline then []
             else [EmittedEvent.pulseChanged p Status.flatline]
         | none => [])) ∧
    ((FlatlineDetector.handleFailure T ts hs s).1.lastPulseStatus
      = some Status.flatline) ∧
    (pulseChangedEvents (FlatlineDetector.handleSuccess ts pulse hs s).2
      = (match s.lastPulseStatus with
         | some p => if p = pulse then [] else [EmittedEvent.pulseChanged p pulse]
         | none => [])) ∧
    ((FlatlineDetector.handleSuccess ts pulse hs s).1.lastPulseStatus = some pulse) ∧
    ((pulseChangedEvents (FlatlineDetector.handleFailure T ts hs s).2).all
      (fun e => match e with
        | .pulseChanged o n => o ≠ n
        | _ => true) = true) ∧
    ((pulseChangedEvents (FlatlineDetector.handleSuccess ts pulse hs s).2).all
      (fun e => match e with
        | .pulseChanged o n => o ≠ n
        | _ => true) = true) := by
  obtain ⟨hfe, hfs⟩ := handleFailure_pulse T ts hs s
  obtain ⟨hse, hss⟩ := handleSuccess_pulse ts pulse hs s
  refine ⟨hfe, hfs, hse, hss, ?_, ?_⟩
  · rw [hfe]
    rcases s.lastPulseStatus with _ | p
    · rfl
    · by_cases hp : p = Status.flatline <;> simp [hp]
  · rw [hse]
    rcases s.lastPulseStatus with _ | p
    · rfl
    · by_cases hp : p = pulse <;> simp [hp]

/-- C8: in the embedded EventBus, a handler subscribed with once whose
callback throws on its first invocation is NOT removed — after one emit it
is still counted by listenerCount and a second emit invokes it again —
because the once wrapper unsubscribes only after the callback returns
normally. A non-throwing once handler is removed as the claim expects.
This evaluates the code at the claim's failing input. -/
theorem c8_theorem :
    EventBus.listenerCount (EventBus.emit (EventBus.once 0 true EventBus.Bus.empty)) = 1 ∧
    (EventBus.emit (EventBus.once 0 true EventBus.Bus.empty)).invocations = 1 ∧
    (EventBus.emit (EventBus.emit (EventBus.once 0 true EventBus.Bus.empty))).invocations
      = 2 ∧
    EventBus.listenerCount (EventBus.emit (EventBus.once 0 false EventBus.Bus.empty)) = 0 := by
  decide

/-- C9: the authenticated and query strategies return a ProbeResult with
no hasResponse field (none) on every outcome, while the basic strategy
sets hasResponse = true on every transport response and false on every
transport failure; any result with hasResponse absent and success = false
is routed to heartbeat_failed by both engine variants, and every
heartbeat_failed increments the detector's consecutiveFailures (so it
counts toward flatline). -/
theorem c9_theorem :
    (∀ o : TransportOutcome, (AuthenticatedGraphQLStrategy.execute o).hasResponse = none) ∧
    (∀ o : TransportOutcome, (QueryGraphQLStrategy.execute o).hasResponse = none) ∧
    (∀ status ok bodyParses authError gqlErrors,
      (BasicGraphQLStrategy.execute
        (TransportOutcome.response status ok bodyParses authError gqlErrors)).hasResponse
          = some true) ∧
    (∀ t, (BasicGraphQLStrategy.execute (TransportOutcome.netFailure t)).hasResponse
      = some false) ∧
    (∀ r : ProbeResult, r.hasResponse = none → r.success = false →
      EngineA.routeHeartbeat r = Routed.failed ∧ EngineB.routeHeartbeat r = Routed.failed) ∧
    (∀ (T : Nat) (ts : Int) (hs : Option Nat) (s : FlatlineDetector.State),
      (FlatlineDetector.handleFailure T ts hs s).1.consecutiveFailures
        = s.consecutiveFailures + 1) := by
  refine ⟨?_, ?_, ?_, ?_, ?_, ?_⟩
  · intro o
    rcases o with ⟨st, ok, bp, ae, ge⟩ | t
    · cases bp <;> rfl
    · rfl
  · intro o
    rcases o with ⟨st, ok, bp, ae, ge⟩ | t
    · cases bp <;> rfl
    · rfl
  · intro status ok bodyParses authError gqlErrors
    rfl
  · intro t
    rfl
  · intro r hnone hsuc
    constructor
    · simp [EngineA.routeHeartbeat, hsuc]
    · simp [EngineB.routeHeartbeat, hsuc, truthy, hnone]
  · intro T ts hs s
    exact (handleFailure_spec T ts hs s).1

/-- C9 witness: a 503 response from the authenticated strategy has no
hasResponse field and is routed to heartbeat_failed by both engines. -/
theorem c9_witness :
    (AuthenticatedGraphQLStrategy.execute
      (TransportOutcome.response 503 false true false false)).hasResponse = none ∧
    EngineA.routeHeartbeat (AuthenticatedGraphQLStrategy.execute
      (TransportOutcome.response 503 false true false false)) = Routed.failed ∧
    EngineB.routeHeartbeat (AuthenticatedGraphQLStrategy.execute
      (TransportOutcome.response 503 false true false false)) = Routed.failed := by
  have h := c9_theorem
  have h1 := h.1 (TransportOutcome.response 503 false true false false)
  have h2 := h.2.2.2.2.1 (AuthenticatedGraphQLStrategy.execute
    (TransportOutcome.response 503 false true false false)) h1 (by decide)
  exact ⟨h1, h2.1, h2.2⟩

/-- C10: for every pulse_changed transition in which the old or the new
status lies outside the degradation hierarchy {healthy, warning, critical}
(flatline in particular), the AlertManager never produces a degraded
alert, and the only alert it can produce is a recovery alert, exactly when
the service is not muted, the new status is healthy and the old one is
not. -/
theorem c10_theorem (oldStatus newStatus : Status) (muted : Bool)
    (h : AlertManager.statusHierarchy oldStatus = none ∨
         AlertManager.statusHierarchy newStatus = none) :
    AlertManager.AlertKind.degradedAlert ∉
      AlertManager.handlePulseChange muted oldStatus newStatus ∧
    AlertManager.handlePulseChange muted oldStatus newStatus
      = (if muted = false ∧ newStatus = Status.healthy ∧ oldStatus ≠ Status.healthy
         then [AlertManager.AlertKind.recoveryAlert] else []) := by
  have hdeg : AlertManager.isStatusDegraded oldStatus newStatus = false := by
    unfold AlertManager.isStatusDegraded AlertManager.jsGt
    rcases h with h | h
    · rw [h]
      rcases AlertManager.statusHierarchy newStatus with _ | k <;> rfl
    · rw [h]
  unfold AlertManager.handlePulseChange
  rw [hdeg]
  cases muted
  · by_cases hr : newStatus = Status.healthy ∧ oldStatus ≠ Status.healthy <;> simp [hr]
  · simp

/-- C10 witness: the flatline→healthy transition of an unmuted service
yields exactly one recovery alert and no degraded alert. -/
theorem c10_witness :
    AlertManager.handlePulseChange false Status.flatline Status.healthy
      = [AlertManager.AlertKind.recoveryAlert] := by
  have h := (c10_theorem Status.flatline Status.healthy false (Or.inl rfl)).2
  simpa using h
